import Mathlib

/-!
Verification development for the financial-viewer repository: a shallow
embedding of the server route `src/app/api/financial/route.ts` and of the
view component `src/components/FinancialViewer.tsx`, together with theorems
about the data-reshaping contract between them.

JavaScript numbers are modelled as rationals (`ℚ`); `undefined`, `null` and
`NaN` are explicit constructors of `JsVal`.  Provider calls and the
environment's formatting builtins (`Intl.NumberFormat`, `Number.toFixed`,
`Number.toLocaleString`, `Date.toLocaleDateString`) are parameters of the
embedded functions, since they are external capabilities, not repository
code.
-/

namespace FinViewer

/-- A JavaScript value as it occurs in the provider responses and the
route's output: `undefined`, `null`, `NaN`, a (finite) number, or a
string. -/
inductive JsVal where
  | undefv
  | nullv
  | nan
  | num (x : ℚ)
  | str (s : String)
deriving DecidableEq

/-- JavaScript truthiness for the values of `JsVal`: `undefined`, `null`,
`NaN`, `0` and `""` are falsy, everything else is truthy. -/
def truthy : JsVal → Bool
  | .undefv => false
  | .nullv => false
  | .nan => false
  | .num x => x != 0
  | .str s => s != ""

/-- The JavaScript `a || b` operator on values. -/
def jsOr (a b : JsVal) : JsVal :=
  if truthy a then a else b

/-- Multiplication by 100, as applied by the route to ratio-valued fields.
Provider numeric fields are numbers or absent; arithmetic on a non-number
yields `NaN` (string-to-number coercion is not modelled, because the route
only multiplies fields the provider delivers as numbers). -/
def mul100 : JsVal → JsVal
  | .num x => .num (x * 100)
  | _ => .nan

/-! ### Calendar arithmetic

`new Date(e).toISOString().split('T')[0]` keys each income statement by the
UTC calendar date of the instant `e`.  Instants are epoch milliseconds
(`Int`); the civil-date conversions below implement the proleptic Gregorian
calendar exactly as ECMA-262 specifies for `Date.prototype.toISOString`. -/

/-- Days since the epoch 1970-01-01 of a Gregorian calendar date. -/
def daysFromCivil (y m d : Int) : Int :=
  let y2 := y - (if m ≤ 2 then 1 else 0)
  let era := Int.fdiv y2 400
  let yoe := y2 - era * 400
  let mp := m + (if m > 2 then -3 else 9)
  let doy := Int.fdiv (153 * mp + 2) 5 + d - 1
  let doe := yoe * 365 + Int.fdiv yoe 4 - Int.fdiv yoe 100 + doy
  era * 146097 + doe - 719468

/-- Gregorian calendar date (year, month, day) of a day count since the
epoch 1970-01-01. -/
def civilFromDays (z0 : Int) : Int × Int × Int :=
  let z := z0 + 719468
  let era := Int.fdiv z 146097
  let doe := Int.fmod z 146097
  let yoe := Int.fdiv (doe - Int.fdiv doe 1460 + Int.fdiv doe 36524 - Int.fdiv doe 146096) 365
  let y := yoe + era * 400
  let doy := doe - (365 * yoe + Int.fdiv yoe 4 - Int.fdiv yoe 100)
  let mp := Int.fdiv (5 * doy + 2) 153
  let d := doy - Int.fdiv (153 * mp + 2) 5 + 1
  let m := mp + (if mp < 10 then 3 else -9)
  (y + (if m ≤ 2 then 1 else 0), m, d)

/-- Zero-pad a (nonnegative) number to two digits. -/
def pad2 (n : Int) : String :=
  (if n < 10 then "0" else "") ++ toString n

/-- Zero-pad a (nonnegative) number to four digits. -/
def pad4 (n : Int) : String :=
  (if n < 10 then "000" else if n < 100 then "00" else if n < 1000 then "0" else "")
    ++ toString n

/-- Format a civil date as the ISO `YYYY-MM-DD` string. -/
def formatCivil : Int × Int × Int → String
  | (y, m, d) => pad4 y ++ "-" ++ pad2 m ++ "-" ++ pad2 d

/-- The date part of `toISOString` of an epoch-millisecond instant: the UTC
calendar date of the instant, formatted `YYYY-MM-DD`. -/
def isoDateKey (ms : Int) : String :=
  formatCivil (civilFromDays (Int.fdiv ms 86400000))

/-- A provider period-end timestamp as denoted on the wire: a local civil
date and time-of-day together with a UTC offset in minutes.  The `Date`
object the route receives stores only the instant this denotes. -/
structure LocalTimestamp where
  year : Int
  month : Int
  day : Int
  hour : Int
  minute : Int
  second : Int
  offsetMinutes : Int
deriving DecidableEq

/-- The epoch-millisecond instant denoted by a local timestamp. -/
def toInstantMs (t : LocalTimestamp) : Int :=
  (daysFromCivil t.year t.month t.day * 86400
    + t.hour * 3600 + t.minute * 60 + t.second
    - t.offsetMinutes * 60) * 1000

/-- The route's income-statement key:
`new Date(statement.endDate).toISOString().split('T')[0]`. -/
def statementKey (t : LocalTimestamp) : String :=
  isoDateKey (toInstantMs t)

/-! ### Provider response shapes (the fields the route reads) -/

/-- The provider quote object, restricted to the fields the route reads. -/
structure ProviderQuote where
  regularMarketPrice : JsVal
  regularMarketChangePercent : JsVal
  regularMarketVolume : JsVal
  regularMarketPreviousClose : JsVal
  regularMarketDayHigh : JsVal
  regularMarketDayLow : JsVal
  averageDailyVolume3Month : JsVal
  marketCap : JsVal
  longName : JsVal
deriving DecidableEq

/-- One income-statement record from the provider. -/
structure ProviderStatement where
  endDate : LocalTimestamp
  totalRevenue : JsVal
  grossProfit : JsVal
  operatingIncome : JsVal
  netIncome : JsVal
deriving DecidableEq

/-- The `summaryDetail` module, restricted to the fields the route reads. -/
structure SummaryDetail where
  trailingPE : JsVal
  fiftyTwoWeekLow : JsVal
  fiftyTwoWeekHigh : JsVal
  dividendYield : JsVal
deriving DecidableEq

/-- The `defaultKeyStatistics` module, restricted to the fields the route
reads. -/
structure DefaultKeyStatistics where
  trailingEps : JsVal
  beta : JsVal
  priceToBook : JsVal
deriving DecidableEq

/-- The `financialData` module, restricted to the fields the route reads. -/
structure FinancialData where
  profitMargins : JsVal
  totalRevenue : JsVal
deriving DecidableEq

/-- The `assetProfile` module, restricted to the fields the route reads. -/
structure AssetProfile where
  sector : JsVal
  industry : JsVal
deriving DecidableEq

/-- An income-statement history bundle; its inner array may itself be
absent. -/
structure IncomeHistoryBundle where
  incomeStatementHistory : Option (List ProviderStatement)
deriving DecidableEq

/-- The provider `quoteSummary` response; each requested module may be
absent (`none` models `undefined`, read through optional chaining). -/
structure ProviderSummary where
  summaryDetail : Option SummaryDetail
  defaultKeyStatistics : Option DefaultKeyStatistics
  financialData : Option FinancialData
  assetProfile : Option AssetProfile
  incomeStatementHistory : Option IncomeHistoryBundle
  incomeStatementHistoryQuarterly : Option IncomeHistoryBundle
deriving DecidableEq

/-- Optional chaining `summary.summaryDetail?.f`. -/
def chainSD (s : ProviderSummary) (f : SummaryDetail → JsVal) : JsVal :=
  match s.summaryDetail with
  | some sd => f sd
  | none => .undefv

/-- Optional chaining `summary.defaultKeyStatistics?.f`. -/
def chainDKS (s : ProviderSummary) (f : DefaultKeyStatistics → JsVal) : JsVal :=
  match s.defaultKeyStatistics with
  | some ks => f ks
  | none => .undefv

/-- Optional chaining `summary.financialData?.f`. -/
def chainFD (s : ProviderSummary) (f : FinancialData → JsVal) : JsVal :=
  match s.financialData with
  | some fd => f fd
  | none => .undefv

/-- Optional chaining `summary.assetProfile?.f`. -/
def chainAP (s : ProviderSummary) (f : AssetProfile → JsVal) : JsVal :=
  match s.assetProfile with
  | some ap => f ap
  | none => .undefv

/-- `summary.incomeStatementHistoryQuarterly?.incomeStatementHistory || []`:
an absent bundle or absent inner array falls back to the empty array (a
present array, even empty, is truthy). -/
def quarterlyStatements (s : ProviderSummary) : List ProviderStatement :=
  match s.incomeStatementHistoryQuarterly with
  | some b =>
    match b.incomeStatementHistory with
    | some l => l
    | none => []
  | none => []

/-- `summary.incomeStatementHistory?.incomeStatementHistory || []`. -/
def annualStatements (s : ProviderSummary) : List ProviderStatement :=
  match s.incomeStatementHistory with
  | some b =>
    match b.incomeStatementHistory with
    | some l => l
    | none => []
  | none => []

/-! ### The route's transformed output -/

/-- One entry of the route's transformed income-statement mapping. -/
structure FinStatement where
  totalRevenue : JsVal
  grossProfit : JsVal
  operatingIncome : JsVal
  netIncome : JsVal
deriving DecidableEq

/-- The `quote` object of the route's 200 response body. -/
structure TQuote where
  price : JsVal
  changePercent : JsVal
  volume : JsVal
  previousClose : JsVal
  dayHigh : JsVal
  dayLow : JsVal
  averageVolume : JsVal
deriving DecidableEq

/-- The `fundamentals` object of the route's 200 response body. -/
structure TFundamentals where
  marketCap : JsVal
  peRatio : JsVal
  eps : JsVal
  profitMargin : JsVal
  revenue : JsVal
  fiftyTwoWeekLow : JsVal
  fiftyTwoWeekHigh : JsVal
  companyName : JsVal
  sector : JsVal
  industry : JsVal
  beta : JsVal
  dividendYield : JsVal
  priceToBook : JsVal
deriving DecidableEq

/-- The route's transformed 200 response body; `quarterly` and `annual` are
the two income-statement mappings under
`financials.financial_statements.{quarterly,annual}.income_statement`,
represented as insertion-ordered key/value lists (JavaScript object
semantics). -/
structure TransformedData where
  quote : TQuote
  fundamentals : TFundamentals
  quarterly : List (String × FinStatement)
  annual : List (String × FinStatement)
deriving DecidableEq

/-- The body of the reducer: each recognized metric is read through
`|| null`. -/
def transformStatementVal (st : ProviderStatement) : FinStatement where
  totalRevenue := jsOr st.totalRevenue .nullv
  grossProfit := jsOr st.grossProfit .nullv
  operatingIncome := jsOr st.operatingIncome .nullv
  netIncome := jsOr st.netIncome .nullv

/-- `acc[date] = value` on a JavaScript object: an existing binding keeps
its position and gets the new value, a new key is appended. -/
def insertStatement (m : List (String × FinStatement)) (kv : String × FinStatement) :
    List (String × FinStatement) :=
  if m.any (fun p => p.1 == kv.1) then
    m.map (fun p => if p.1 == kv.1 then kv else p)
  else
    m ++ [kv]

/-- The `reduce` over provider statements that builds an income-statement
mapping keyed by ISO date. -/
def transformStatements (l : List ProviderStatement) : List (String × FinStatement) :=
  l.foldl (fun acc st => insertStatement acc (statementKey st.endDate, transformStatementVal st)) []

/-- The route's `transformedData` value, built from the quote and summary
responses for a (truthy) symbol. -/
def transformedData (symbol : String) (quote : ProviderQuote) (summary : ProviderSummary) :
    TransformedData where
  quote :=
    { price := jsOr quote.regularMarketPrice .nullv
      changePercent := jsOr quote.regularMarketChangePercent .nullv
      volume := jsOr quote.regularMarketVolume .nullv
      previousClose := jsOr quote.regularMarketPreviousClose .nullv
      dayHigh := jsOr quote.regularMarketDayHigh .nullv
      dayLow := jsOr quote.regularMarketDayLow .nullv
      averageVolume := jsOr quote.averageDailyVolume3Month .nullv }
  fundamentals :=
    { marketCap := jsOr quote.marketCap .nullv
      peRatio := jsOr (chainSD summary (·.trailingPE)) .nullv
      eps := jsOr (chainDKS summary (·.trailingEps)) .nullv
      profitMargin :=
        if truthy (chainFD summary (·.profitMargins)) then
          mul100 (chainFD summary (·.profitMargins))
        else .nullv
      revenue := jsOr (chainFD summary (·.totalRevenue)) .nullv
      fiftyTwoWeekLow := jsOr (chainSD summary (·.fiftyTwoWeekLow)) .nullv
      fiftyTwoWeekHigh := jsOr (chainSD summary (·.fiftyTwoWeekHigh)) .nullv
      companyName := jsOr quote.longName (.str symbol)
      sector := jsOr (chainAP summary (·.sector)) .nullv
      industry := jsOr (chainAP summary (·.industry)) .nullv
      beta := jsOr (chainDKS summary (·.beta)) .nullv
      dividendYield :=
        if truthy (chainSD summary (·.dividendYield)) then
          mul100 (chainSD summary (·.dividendYield))
        else .nullv
      priceToBook := jsOr (chainDKS summary (·.priceToBook)) .nullv }
  quarterly := transformStatements (quarterlyStatements summary)
  annual := transformStatements (annualStatements summary)

/-! ### JSON serialization of the response body

`NextResponse.json` serializes with `JSON.stringify` semantics: a key whose
value is `undefined` is omitted; `null` and `NaN` keys stay (NaN serializes
as `null`). -/

/-- Key/value pairs of the output `quote` object, in declaration order. -/
def quotePairs (t : TQuote) : List (String × JsVal) :=
  [("price", t.price), ("changePercent", t.changePercent), ("volume", t.volume),
   ("previousClose", t.previousClose), ("dayHigh", t.dayHigh), ("dayLow", t.dayLow),
   ("averageVolume", t.averageVolume)]

/-- Key/value pairs of the output `fundamentals` object, in declaration
order. -/
def fundamentalsPairs (t : TFundamentals) : List (String × JsVal) :=
  [("marketCap", t.marketCap), ("peRatio", t.peRatio), ("eps", t.eps),
   ("profitMargin", t.profitMargin), ("revenue", t.revenue),
   ("fiftyTwoWeekLow", t.fiftyTwoWeekLow), ("fiftyTwoWeekHigh", t.fiftyTwoWeekHigh),
   ("companyName", t.companyName), ("sector", t.sector), ("industry", t.industry),
   ("beta", t.beta), ("dividendYield", t.dividendYield), ("priceToBook", t.priceToBook)]

/-- Key/value pairs of one serialized income-statement entry. -/
def statementPairs (v : FinStatement) : List (String × JsVal) :=
  [("totalRevenue", v.totalRevenue), ("grossProfit", v.grossProfit),
   ("operatingIncome", v.operatingIncome), ("netIncome", v.netIncome)]

/-- The keys that survive JSON serialization: those whose value is not
`undefined`. -/
def presentKeys (ps : List (String × JsVal)) : List String :=
  (ps.filter (fun p => p.2 != JsVal.undefv)).map Prod.fst

/-! ### The GET handler -/

/-- A JavaScript rejection reason: an `Error` carrying a message, or any
other thrown value. -/
inductive JsErr where
  | errObj (message : String)
  | nonError
deriving DecidableEq

/-- `error instanceof Error ? error.message : 'Unknown error'`. -/
def messageOf : JsErr → String
  | .errObj m => m
  | .nonError => "Unknown error"

/-- The JSON body of a route response. -/
inductive ApiBody where
  | errBody (error : String)
  | errDetails (error details : String)
  | okBody (d : TransformedData)
deriving DecidableEq

/-- A route response: HTTP status and JSON body. -/
structure ApiResp where
  status : Nat
  body : ApiBody
deriving DecidableEq

/-- `Promise.all` over the two provider calls: succeeds with both results,
rejects if either call rejects (modelled left-biased when both reject). -/
def promiseAll2 (a : Except JsErr ProviderQuote) (b : Except JsErr ProviderSummary) :
    Except JsErr (ProviderQuote × ProviderSummary) :=
  match a, b with
  | .ok x, .ok y => .ok (x, y)
  | .error e, _ => .error e
  | .ok _, .error e => .error e

/-- The GET handler of `src/app/api/financial/route.ts`.  The symbol query
parameter is `none` when absent; the two provider operations are
parameters, applied only on the success path. -/
def GET (symbolParam : Option String)
    (fetchQuote : String → Except JsErr ProviderQuote)
    (fetchSummary : String → Except JsErr ProviderSummary) : ApiResp :=
  match symbolParam with
  | none => ⟨400, .errBody "Stock symbol is required"⟩
  | some sym =>
    if sym = "" then ⟨400, .errBody "Stock symbol is required"⟩
    else
      match promiseAll2 (fetchQuote sym) (fetchSummary sym) with
      | .error e => ⟨500, .errDetails "Failed to fetch stock data" (messageOf e)⟩
      | .ok (q, s) => ⟨200, .okBody (transformedData sym q s)⟩

/-! ### The view component `src/components/FinancialViewer.tsx`

The embedded revision is the canonical one (the revision with quarterly and
annual tabs, machine metric keys mapped to labels at render time, and
descending column dates).  Numeric JSON fields reaching the view are a
number or `null`, modelled as `Option ℚ` (`none` is `null`). -/

/-- The metric keys of a statement row, as typed in the component. -/
inductive MetricKey where
  | totalRevenue
  | grossProfit
  | operatingIncome
  | netIncome
  | ebitda
  | researchDevelopment
  | sellingGeneralAdministrative
  | totalOperatingExpenses
deriving DecidableEq

/-- The `metricLabels` display-name mapping. -/
def metricLabels : MetricKey → String
  | .totalRevenue => "Total Revenue"
  | .grossProfit => "Gross Profit"
  | .operatingIncome => "Operating Income"
  | .netIncome => "Net Income"
  | .ebitda => "EBITDA"
  | .researchDevelopment => "R&D Expenses"
  | .sellingGeneralAdministrative => "SG&A Expenses"
  | .totalOperatingExpenses => "Total Operating Expenses"

/-- The fixed, ordered metric list of `renderFinancialTable`. -/
def metricsOrder : List MetricKey :=
  [.totalRevenue, .grossProfit, .operatingIncome, .ebitda, .researchDevelopment,
   .sellingGeneralAdministrative, .totalOperatingExpenses, .netIncome]

/-- One income-statement entry as the view receives it. -/
structure VStatement where
  totalRevenue : Option ℚ
  grossProfit : Option ℚ
  operatingIncome : Option ℚ
  netIncome : Option ℚ
  ebitda : Option ℚ
  researchDevelopment : Option ℚ
  sellingGeneralAdministrative : Option ℚ
  totalOperatingExpenses : Option ℚ
deriving DecidableEq

/-- Field access `statement[metric]`. -/
def VStatement.get (v : VStatement) : MetricKey → Option ℚ
  | .totalRevenue => v.totalRevenue
  | .grossProfit => v.grossProfit
  | .operatingIncome => v.operatingIncome
  | .netIncome => v.netIncome
  | .ebitda => v.ebitda
  | .researchDevelopment => v.researchDevelopment
  | .sellingGeneralAdministrative => v.sellingGeneralAdministrative
  | .totalOperatingExpenses => v.totalOperatingExpenses

/-- Whether every metric of an entry is `null`. -/
def VStatement.allNull (v : VStatement) : Bool :=
  v.totalRevenue.isNone && v.grossProfit.isNone && v.operatingIncome.isNone
    && v.netIncome.isNone && v.ebitda.isNone && v.researchDevelopment.isNone
    && v.sellingGeneralAdministrative.isNone && v.totalOperatingExpenses.isNone

/-- The `quote` object of the `ApiResponse` the view consumes. -/
structure VQuote where
  price : Option ℚ
  changePercent : Option ℚ
  volume : Option ℚ
  previousClose : Option ℚ
  averageVolume : Option ℚ
  dayHigh : Option ℚ
  dayLow : Option ℚ
deriving DecidableEq

/-- The `fundamentals` object of the `ApiResponse` the view consumes. -/
structure VFundamentals where
  marketCap : Option ℚ
  peRatio : Option ℚ
  eps : Option ℚ
  profitMargin : Option ℚ
  revenue : Option ℚ
  fiftyTwoWeekLow : Option ℚ
  fiftyTwoWeekHigh : Option ℚ
  companyName : String
  beta : Option ℚ
  dividendYield : Option ℚ
  priceToBook : Option ℚ
deriving DecidableEq

/-- The two income-statement mappings; either may be absent at runtime
(the check `!data?.financials?.financial_statements?.[type]?.income_statement`
guards each independently). -/
structure VFinancials where
  quarterly : Option (List (String × VStatement))
  annual : Option (List (String × VStatement))
deriving DecidableEq

/-- The response shape the view consumes. -/
structure ApiResponse where
  quote : VQuote
  fundamentals : VFundamentals
  financials : Option VFinancials
deriving DecidableEq

/-- Whether every entry of a possibly-absent statement mapping is
all-`null`. -/
def allNullMapping : Option (List (String × VStatement)) → Bool
  | none => true
  | some l => l.all (fun kv => kv.2.allNull)

/-- Whether every numeric field of a response is `null` (statement entries
included). -/
def allNullResp (d : ApiResponse) : Bool :=
  d.quote.price.isNone && d.quote.changePercent.isNone && d.quote.volume.isNone
    && d.quote.previousClose.isNone && d.quote.averageVolume.isNone
    && d.quote.dayHigh.isNone && d.quote.dayLow.isNone
    && d.fundamentals.marketCap.isNone && d.fundamentals.peRatio.isNone
    && d.fundamentals.eps.isNone && d.fundamentals.profitMargin.isNone
    && d.fundamentals.revenue.isNone && d.fundamentals.fiftyTwoWeekLow.isNone
    && d.fundamentals.fiftyTwoWeekHigh.isNone && d.fundamentals.beta.isNone
    && d.fundamentals.dividendYield.isNone && d.fundamentals.priceToBook.isNone
    && (match d.financials with
        | none => true
        | some f => allNullMapping f.quarterly && allNullMapping f.annual)

/-- JavaScript `a || b` on strings (the `?.toFixed(2) || 'N/A'` pattern). -/
def jsOrStr (a b : String) : String :=
  if a = "" then b else a

/-- The component's `formatValue`: `null`/`undefined` renders as the fixed
placeholder, a percentage as `toFixed(2)` plus `%`, any other number through
the `Intl.NumberFormat` compact-currency formatter (`intl` and `toFix` are
the environment's formatters). -/
def formatValue (intl toFix : ℚ → String) : Option ℚ → Bool → String
  | none, _ => "N/A"
  | some x, true => toFix x ++ "%"
  | some x, false => intl x

/-- Displayed text of `formatPercentageChange` (the color class is layout,
not data). -/
def formatPercentageChange (toFix : ℚ → String) : Option ℚ → String
  | none => "N/A"
  | some x => (if 0 ≤ x then "+" else "") ++ toFix x ++ "%"

/-- The P/E slot: `fundamentals?.peRatio?.toFixed(2) || 'N/A'`. -/
def peRatioSlot (toFix : ℚ → String) : Option ℚ → String
  | none => "N/A"
  | some x => jsOrStr (toFix x) "N/A"

/-- The volume slot: `quote?.volume?.toLocaleString() || 'N/A'`. -/
def volumeSlot (toLocale : ℚ → String) : Option ℚ → String
  | none => "N/A"
  | some x => jsOrStr (toLocale x) "N/A"

/-- The atomic value strings of the metrics grid rendered by
`renderFinancialMetrics`, in layout order: price, percent change, market
cap, P/E, EPS, revenue, profit margin, 52-week low, 52-week high,
volume. -/
def renderFinancialMetrics (intl toFix toLocale : ℚ → String) (d : ApiResponse) :
    List String :=
  [formatValue intl toFix d.quote.price false,
   formatPercentageChange toFix d.quote.changePercent,
   formatValue intl toFix d.fundamentals.marketCap false,
   peRatioSlot toFix d.fundamentals.peRatio,
   formatValue intl toFix d.fundamentals.eps false,
   formatValue intl toFix d.fundamentals.revenue false,
   formatValue intl toFix d.fundamentals.profitMargin true,
   formatValue intl toFix d.fundamentals.fiftyTwoWeekLow false,
   formatValue intl toFix d.fundamentals.fiftyTwoWeekHigh false,
   volumeSlot toLocale d.quote.volume]

/-- The table periodicity selector. -/
inductive PeriodType where
  | quarterly
  | annual
deriving DecidableEq

/-- The lowercase label interpolated into `No {type} data available`. -/
def PeriodType.label : PeriodType → String
  | .quarterly => "quarterly"
  | .annual => "annual"

/-- `data?.financials?.financial_statements?.[type]?.income_statement`. -/
def getMapping (d : Option ApiResponse) (ty : PeriodType) :
    Option (List (String × VStatement)) :=
  match d with
  | none => none
  | some r =>
    match r.financials with
    | none => none
    | some f =>
      match ty with
      | .quarterly => f.quarterly
      | .annual => f.annual

/-- `Object.keys(statements).sort()`: JavaScript's default sort compares
elements as strings (lexicographically over their character sequences) and
is stable, so its observable result is the stable sort by that order. -/
def jsSortStrings (l : List String) : List String :=
  List.insertionSort (fun a b => a.data ≤ b.data) l

/-- The current revision's column order:
`Object.keys(statements).sort().reverse()`. -/
def columnDates (keys : List String) : List String :=
  (jsSortStrings keys).reverse

/-- The earlier revision's column order (FinancialViewer.tsx line 531):
`Object.keys(statements).sort()` with no reversal. -/
def columnDatesEarlier (keys : List String) : List String :=
  jsSortStrings keys

/-- `statements[date]` on the mapping. -/
def lookupStatement (statements : List (String × VStatement)) (date : String) :
    Option VStatement :=
  (statements.find? (fun p => p.1 == date)).map Prod.snd

/-- One table cell: `formatValue(statements[date][metric])`.  The lookup
always succeeds because the column dates are the mapping's own keys. -/
def cellText (intl toFix : ℚ → String) (statements : List (String × VStatement))
    (date : String) (mk : MetricKey) : String :=
  match lookupStatement statements date with
  | some st => formatValue intl toFix (st.get mk) false
  | none => formatValue intl toFix none false

/-- What `renderFinancialTable` returns: the no-data message div, the bare
`null`, or a table of header strings and labelled rows of cell strings. -/
inductive TableRender where
  | noData (msg : String)
  | bare
  | table (headers : List String) (rows : List (String × List String))
deriving DecidableEq

/-- Whether a render result is the no-data message. -/
def TableRender.isNoData : TableRender → Bool
  | .noData _ => true
  | _ => false

/-- The component's `renderFinancialTable` (canonical revision):
absent mapping renders the no-data message, an empty key set returns
`null`, otherwise the pivoted table with descending date columns
(`localeDate` is the environment's `toLocaleDateString`). -/
def renderFinancialTable (intl toFix : ℚ → String) (localeDate : String → String)
    (d : Option ApiResponse) (ty : PeriodType) : TableRender :=
  match getMapping d ty with
  | none => .noData ("No " ++ ty.label ++ " data available")
  | some statements =>
    let dates := columnDates (statements.map Prod.fst)
    if dates.isEmpty then .bare
    else
      .table (dates.map localeDate)
        (metricsOrder.map (fun mk =>
          (metricLabels mk, dates.map (fun date => cellText intl toFix statements date mk))))

/-! ### The fetch/display state machine of the component -/

/-- The component-local state: symbol input, fetched data, loading flag and
error message (`""` means no error). -/
structure ViewState where
  symbol : String
  data : Option ApiResponse
  loading : Bool
  error : String
deriving DecidableEq

/-- The initial state: empty symbol, no data, not loading, no error. -/
def initState : ViewState :=
  ⟨"", none, false, ""⟩

/-- Events of the fetch/display cycle: editing the symbol, the click that
starts `fetchData`, and the two possible completions of the in-flight
request (success with a parsed body, or the catch block with the extracted
message). -/
inductive FetchEvent where
  | edit (s : String)
  | fetchStart
  | fetchOk (r : ApiResponse)
  | fetchErr (msg : String)
deriving DecidableEq

/-- One transition of the component.  `fetchStart` is guarded the way the
UI guards it (button disabled while loading or with an empty symbol, plus
the `if (!symbol) return`); it sets `loading` and clears `error`.
Completions apply only while a fetch is in flight.  The catch block sets
the error message and clears the data in the same transition. -/
def step (st : ViewState) : FetchEvent → ViewState
  | .edit s => { st with symbol := s }
  | .fetchStart =>
    if st.loading ∨ st.symbol = "" then st
    else { st with loading := true, error := "" }
  | .fetchOk r =>
    if st.loading then { st with data := some r, loading := false } else st
  | .fetchErr m =>
    if st.loading then { st with error := m, data := none, loading := false } else st

/-- The state after a sequence of events from the initial state. -/
def run (evs : List FetchEvent) : ViewState :=
  evs.foldl step initState

/-! ### Sample inputs used by witnesses and counterexamples -/

/-- A trivial stand-in for the environment's numeric formatters. -/
def fmt0 : ℚ → String := fun _ => ""

/-- A trivial stand-in for `toLocaleDateString`. -/
def idStr : String → String := fun s => s

/-- 2023-03-31 00:00:00 at UTC offset zero. -/
def tsA : LocalTimestamp := ⟨2023, 3, 31, 0, 0, 0, 0⟩

/-- 2023-03-31 10:00:00 at UTC offset zero: same UTC day as `tsA`. -/
def tsMid : LocalTimestamp := ⟨2023, 3, 31, 10, 0, 0, 0⟩

/-- 2023-03-31 23:00:00 at UTC offset −05:00: the same local calendar date
as `tsA`, but the instant falls on 2023-04-01 UTC. -/
def tsB : LocalTimestamp := ⟨2023, 3, 31, 23, 0, 0, -300⟩

/-- A provider statement dated `tsA` with no metric values. -/
def stA : ProviderStatement := ⟨tsA, .undefv, .undefv, .undefv, .undefv⟩

/-- A provider statement dated `tsMid` with no metric values. -/
def stMid : ProviderStatement := ⟨tsMid, .undefv, .undefv, .undefv, .undefv⟩

/-- A provider statement dated `tsB` with no metric values. -/
def stB : ProviderStatement := ⟨tsB, .undefv, .undefv, .undefv, .undefv⟩

/-- A provider quote with every field absent. -/
def cexQuote : ProviderQuote :=
  ⟨.undefv, .undefv, .undefv, .undefv, .undefv, .undefv, .undefv, .undefv, .undefv⟩

/-- A provider summary with every module absent. -/
def emptySummary : ProviderSummary := ⟨none, none, none, none, none, none⟩

/-- A provider summary whose ratio-valued fields are exactly zero. -/
def zeroRatioSummary : ProviderSummary :=
  ⟨some ⟨.undefv, .undefv, .undefv, .num 0⟩, none, some ⟨.num 0, .undefv⟩, none, none, none⟩

/-- A provider summary with nonzero ratio-valued fields (profit margin
fraction 1/4, dividend yield fraction 3/100). -/
def ratioSummary : ProviderSummary :=
  ⟨some ⟨.undefv, .undefv, .undefv, .num (3 / 100)⟩, none,
   some ⟨.num (1 / 4), .undefv⟩, none, none, none⟩

/-- A provider summary carrying exactly one quarterly statement. -/
def oneStatementSummary : ProviderSummary :=
  ⟨none, none, none, none, none, some ⟨some [stA]⟩⟩

/-- A quote fetch that rejects with an `Error` whose message is `boom`. -/
def failQuoteFetch : String → Except JsErr ProviderQuote :=
  fun _ => .error (.errObj "boom")

/-- A quote fetch that resolves with `cexQuote`. -/
def okQuoteFetch : String → Except JsErr ProviderQuote := fun _ => .ok cexQuote

/-- A summary fetch that resolves with `emptySummary`. -/
def okSummaryFetch : String → Except JsErr ProviderSummary := fun _ => .ok emptySummary

/-- A provider quote whose numeric fields are all exactly zero. -/
def zQuote : ProviderQuote :=
  ⟨.num 0, .num 0, .num 0, .num 0, .num 0, .num 0, .num 0, .num 0, .undefv⟩

/-- A `summaryDetail` module whose fields are all exactly zero. -/
def zSD : SummaryDetail := ⟨.num 0, .num 0, .num 0, .num 0⟩

/-- A `defaultKeyStatistics` module whose fields are all exactly zero. -/
def zDKS : DefaultKeyStatistics := ⟨.num 0, .num 0, .num 0⟩

/-- A `financialData` module whose fields are all exactly zero. -/
def zFD : FinancialData := ⟨.num 0, .num 0⟩

/-- A provider summary whose numeric fields are all exactly zero. -/
def zSummary : ProviderSummary := ⟨some zSD, some zDKS, some zFD, none, none, none⟩

/-- A provider statement whose metrics are all exactly zero. -/
def zStatement : ProviderStatement := ⟨tsA, .num 0, .num 0, .num 0, .num 0⟩

/-- A view quote with every field `null`. -/
def nullVQuote : VQuote := ⟨none, none, none, none, none, none, none⟩

/-- View fundamentals with every numeric field `null`. -/
def nullVFund : VFundamentals :=
  ⟨none, none, none, none, none, none, none, "AAPL", none, none, none⟩

/-- An all-`null` response with no statement bundle at all. -/
def dNull : ApiResponse := ⟨nullVQuote, nullVFund, none⟩

/-- An all-`null` response whose statement mappings are present but
empty. -/
def emptyMapResp : ApiResponse := ⟨nullVQuote, nullVFund, some ⟨some [], some []⟩⟩

/-- A demonstration event sequence ending in a failed fetch. -/
def demoEvents : List FetchEvent :=
  [.edit "AAPL", .fetchStart, .fetchErr "Failed to fetch stock data"]

/-- The invariant of the fetch/display cycle: while a fetch is in flight
the error is clear, and an error state never holds data. -/
def Inv (st : ViewState) : Prop :=
  (st.loading = true → st.error = "") ∧ (st.error ≠ "" → st.data = none)

/-! ## Helper lemmas -/

theorem jsOr_ne_undefv (a b : JsVal) (hb : b ≠ .undefv) : jsOr a b ≠ .undefv := by
  unfold jsOr
  split
  · rename_i h
    cases a <;> simp_all [truthy]
  · exact hb

theorem jsOr_nullv_bne_undefv (a : JsVal) : (jsOr a JsVal.nullv != JsVal.undefv) = true := by
  simpa [bne_iff_ne] using jsOr_ne_undefv a .nullv (by simp)

theorem jsOr_str_bne_undefv (a : JsVal) (s : String) :
    (jsOr a (JsVal.str s) != JsVal.undefv) = true := by
  simpa [bne_iff_ne] using jsOr_ne_undefv a (.str s) (by simp)

theorem scaled_bne_undefv (v : JsVal) :
    ((if truthy v then mul100 v else JsVal.nullv) != JsVal.undefv) = true := by
  rw [bne_iff_ne]
  split
  · cases v <;> simp [mul100]
  · simp

/-- C1: a request whose query string lacks the `symbol` parameter gets
status 400 with body `error: "Stock symbol is required"`, whatever the
provider operations would do — in particular no provider call is needed to
produce the response. -/
theorem missing_symbol_rejected :
    ∀ (fetchQuote : String → Except JsErr ProviderQuote)
      (fetchSummary : String → Except JsErr ProviderSummary),
      GET none fetchQuote fetchSummary = ⟨400, .errBody "Stock symbol is required"⟩ :=
  fun _ _ => rfl

/-- C3 (amended): whenever the provider supplies a nonzero numeric
fraction for `profitMargins` or `dividendYield`, the corresponding output
field is exactly that fraction times 100; a fraction of exactly zero is
falsy and maps to `null` instead (see the counterexample). -/
theorem ratio_fields_scaled (sym : String) (q : ProviderQuote) (s : ProviderSummary) :
    (∀ (fd : FinancialData) (x : ℚ), s.financialData = some fd →
      fd.profitMargins = .num x → x ≠ 0 →
      (transformedData sym q s).fundamentals.profitMargin = .num (x * 100)) ∧
    (∀ (sd : SummaryDetail) (y : ℚ), s.summaryDetail = some sd →
      sd.dividendYield = .num y → y ≠ 0 →
      (transformedData sym q s).fundamentals.dividendYield = .num (y * 100)) := by
  constructor
  · intro fd x hfd hx hne
    simp [transformedData, chainFD, hfd, hx, truthy, mul100, hne]
  · intro sd y hsd hy hne
    simp [transformedData, chainSD, hsd, hy, truthy, mul100, hne]

/-- Witness for C3: with profit-margin fraction 1/4 and dividend-yield
fraction 3/100, the output fields are 25 and 3. -/
theorem ratio_fields_scaled_witness :
    (transformedData "AAPL" cexQuote ratioSummary).fundamentals.profitMargin = .num 25 ∧
    (transformedData "AAPL" cexQuote ratioSummary).fundamentals.dividendYield = .num 3 := by
  have h := ratio_fields_scaled "AAPL" cexQuote ratioSummary
  constructor
  · have hm := h.1 ⟨.num (1 / 4), .undefv⟩ (1 / 4) rfl rfl (by norm_num)
    have he : ((1 : ℚ) / 4) * 100 = 25 := by norm_num
    rw [he] at hm
    exact hm
  · have hm := h.2 ⟨.undefv, .undefv, .undefv, .num (3 / 100)⟩ (3 / 100) rfl rfl (by norm_num)
    have he : ((3 : ℚ) / 100) * 100 = 3 := by norm_num
    rw [he] at hm
    exact hm

/-- Counterexample for C3 as stated: a profit-margin or dividend-yield
fraction of exactly zero produces `null`, not `0 * 100`. -/
theorem ratio_zero_not_scaled :
    (transformedData "AAPL" cexQuote zeroRatioSummary).fundamentals.profitMargin = JsVal.nullv ∧
    (transformedData "AAPL" cexQuote zeroRatioSummary).fundamentals.dividendYield = JsVal.nullv ∧
    JsVal.nullv ≠ JsVal.num ((0 : ℚ) * 100) := by
  refine ⟨?_, ?_, by decide⟩ <;>
    simp [transformedData, chainFD, chainSD, zeroRatioSummary, cexQuote, truthy]

/-- C4 (amended): the income-statement key is the ISO calendar date of the
period-end instant evaluated in UTC; any two period-end timestamps whose
instants fall in the same UTC day get the same key.  It is not invariant
under changes of offset that preserve the local calendar date (see the
counterexample). -/
theorem key_is_utc_date (s1 s2 : ProviderStatement)
    (h : Int.fdiv (toInstantMs s1.endDate) 86400000
        = Int.fdiv (toInstantMs s2.endDate) 86400000) :
    statementKey s1.endDate = statementKey s2.endDate ∧
    statementKey s1.endDate
      = formatCivil (civilFromDays (Int.fdiv (toInstantMs s1.endDate) 86400000)) := by
  unfold statementKey isoDateKey
  rw [h]
  exact ⟨rfl, rfl⟩

/-- Witness for C4: two period-end times ten hours apart in the same UTC
day are stored under the same key. -/
theorem key_is_utc_date_witness :
    statementKey stA.endDate = statementKey stMid.endDate :=
  (key_is_utc_date stA stMid (by decide)).1

/-- Counterexample for C4 as stated: two source timestamps carrying the
same calendar date 2023-03-31, one at offset +00:00 and one at 23:00 with
offset −05:00, are stored under different keys — the endpoint keys by the
UTC date of the instant, not by the timestamp's own calendar date. -/
theorem key_depends_on_offset :
    tsA.year = tsB.year ∧ tsA.month = tsB.month ∧ tsA.day = tsB.day ∧
    statementKey tsA = "2023-03-31" ∧ statementKey tsB = "2023-04-01" ∧
    (transformStatements [stB]).map Prod.fst = ["2023-04-01"] ∧
    statementKey tsA ≠ statementKey tsB := by
  refine ⟨rfl, rfl, rfl, by decide, by decide, by decide, by decide⟩

/-- C5: with a present symbol, the response is a function of both provider
results joined all-or-nothing: if either call rejects with an `Error`, the
whole request answers 500 with the fixed error string and the error's
message as `details` and no partial data; if both resolve, the response is
the full 200 transformation of both results. -/
theorem all_or_nothing (sym : String)
    (f : String → Except JsErr ProviderQuote)
    (g : String → Except JsErr ProviderSummary) (hsym : sym ≠ "") :
    (∀ (m : String) (s2 : ProviderSummary), f sym = .error (.errObj m) → g sym = .ok s2 →
      GET (some sym) f g = ⟨500, .errDetails "Failed to fetch stock data" m⟩) ∧
    (∀ (m : String) (q2 : ProviderQuote), f sym = .ok q2 → g sym = .error (.errObj m) →
      GET (some sym) f g = ⟨500, .errDetails "Failed to fetch stock data" m⟩) ∧
    (∀ e1 e2, f sym = .error e1 → g sym = .error e2 → (GET (some sym) f g).status = 500) ∧
    (∀ (q2 : ProviderQuote) (s2 : ProviderSummary), f sym = .ok q2 → g sym = .ok s2 →
      GET (some sym) f g = ⟨200, .okBody (transformedData sym q2 s2)⟩) := by
  refine ⟨?_, ?_, ?_, ?_⟩
  · intro m s2 hf hg
    simp [GET, hsym, promiseAll2, hf, hg, messageOf]
  · intro m q2 hf hg
    simp [GET, hsym, promiseAll2, hf, hg, messageOf]
  · intro e1 e2 hf hg
    simp [GET, hsym, promiseAll2, hf, hg]
  · intro q2 s2 hf hg
    simp [GET, hsym, promiseAll2, hf, hg]

/-- Witness for C5: a quote rejection with message `boom` against a
resolving summary yields the 500 body with `details: "boom"`. -/
theorem all_or_nothing_witness :
    GET (some "AAPL") failQuoteFetch okSummaryFetch
      = ⟨500, .errDetails "Failed to fetch stock data" "boom"⟩ :=
  (all_or_nothing "AAPL" failQuoteFetch okSummaryFetch (by decide)).1
    "boom" emptySummary rfl rfl

/-- C6: when both calls resolve but the summary lacks an annual (or
quarterly) income-statement history, the request still answers 200 with the
full transformed body, and the missing branch is the empty mapping. -/
theorem missing_history_not_fatal (sym : String)
    (f : String → Except JsErr ProviderQuote)
    (g : String → Except JsErr ProviderSummary)
    (q : ProviderQuote) (s : ProviderSummary)
    (hsym : sym ≠ "") (hf : f sym = .ok q) (hg : g sym = .ok s) :
    GET (some sym) f g = ⟨200, .okBody (transformedData sym q s)⟩ ∧
    (s.incomeStatementHistory = none → (transformedData sym q s).annual = []) ∧
    (s.incomeStatementHistoryQuarterly = none → (transformedData sym q s).quarterly = []) := by
  refine ⟨by simp [GET, hsym, promiseAll2, hf, hg], ?_, ?_⟩
  · intro h
    simp [transformedData, annualStatements, h, transformStatements]
  · intro h
    simp [transformedData, quarterlyStatements, h, transformStatements]

/-- Witness for C6: a summary with neither history bundle still produces a
200 response whose two statement branches are empty mappings. -/
theorem missing_history_not_fatal_witness :
    GET (some "AAPL") okQuoteFetch okSummaryFetch
      = ⟨200, .okBody (transformedData "AAPL" cexQuote emptySummary)⟩ ∧
    (transformedData "AAPL" cexQuote emptySummary).annual = [] ∧
    (transformedData "AAPL" cexQuote emptySummary).quarterly = [] := by
  have h := missing_history_not_fatal "AAPL" okQuoteFetch okSummaryFetch
    cexQuote emptySummary (by decide) rfl rfl
  exact ⟨h.1, h.2.1 rfl, h.2.2 rfl⟩

/-- Membership in a JavaScript-object insertion is membership in the old
object or equality with the inserted binding. -/
theorem mem_insertStatement {m : List (String × FinStatement)}
    {kv p : String × FinStatement} (h : p ∈ insertStatement m kv) : p ∈ m ∨ p = kv := by
  unfold insertStatement at h
  split at h
  · obtain ⟨q, hq, heq⟩ := List.mem_map.mp h
    split at heq
    · right
      exact heq.symm
    · left
      exact heq ▸ hq
  · rcases List.mem_append.mp h with h | h
    · left
      exact h
    · right
      simpa using h

/-- Every binding of a transformed statement mapping is the transformation
of some provider statement. -/
theorem transformStatements_mem_aux (l : List ProviderStatement) :
    ∀ (acc : List (String × FinStatement)),
      (∀ p ∈ acc, ∃ st, p = (statementKey st.endDate, transformStatementVal st)) →
      ∀ p ∈ l.foldl
        (fun acc st => insertStatement acc (statementKey st.endDate, transformStatementVal st))
        acc,
        ∃ st, p = (statementKey st.endDate, transformStatementVal st) := by
  induction l with
  | nil =>
    intro acc hacc p hp
    exact hacc p hp
  | cons hd tl ih =>
    intro acc hacc p hp
    refine ih _ ?_ p hp
    intro r hr
    rcases mem_insertStatement hr with h | h
    · exact hacc r h
    · exact ⟨hd, h⟩

/-- C2: the serialized key set of the route's 200 body is constant: every
declared key of `quote`, of `fundamentals`, and of each income-statement
entry survives serialization (no field is ever `undefined`), whatever the
provider populated. -/
theorem output_keys_constant (sym : String) (q : ProviderQuote) (s : ProviderSummary) :
    presentKeys (quotePairs (transformedData sym q s).quote)
      = ["price", "changePercent", "volume", "previousClose", "dayHigh", "dayLow",
         "averageVolume"] ∧
    presentKeys (fundamentalsPairs (transformedData sym q s).fundamentals)
      = ["marketCap", "peRatio", "eps", "profitMargin", "revenue", "fiftyTwoWeekLow",
         "fiftyTwoWeekHigh", "companyName", "sector", "industry", "beta", "dividendYield",
         "priceToBook"] ∧
    (∀ st : ProviderStatement,
      presentKeys (statementPairs (transformStatementVal st))
        = ["totalRevenue", "grossProfit", "operatingIncome", "netIncome"]) ∧
    (∀ kv ∈ (transformedData sym q s).quarterly,
      presentKeys (statementPairs kv.2)
        = ["totalRevenue", "grossProfit", "operatingIncome", "netIncome"]) ∧
    (∀ kv ∈ (transformedData sym q s).annual,
      presentKeys (statementPairs kv.2)
        = ["totalRevenue", "grossProfit", "operatingIncome", "netIncome"]) := by
  have hstmt : ∀ st : ProviderStatement,
      presentKeys (statementPairs (transformStatementVal st))
        = ["totalRevenue", "grossProfit", "operatingIncome", "netIncome"] := by
    intro st
    simp [presentKeys, statementPairs, transformStatementVal, List.filter,
      jsOr_nullv_bne_undefv]
  refine ⟨?_, ?_, hstmt, ?_, ?_⟩
  · simp [presentKeys, quotePairs, transformedData, List.filter, jsOr_nullv_bne_undefv]
  · simp [presentKeys, fundamentalsPairs, transformedData, List.filter,
      jsOr_nullv_bne_undefv, jsOr_str_bne_undefv, scaled_bne_undefv]
  · intro kv hkv
    have hmem : kv ∈ transformStatements (quarterlyStatements s) := by
      simpa [transformedData] using hkv
    obtain ⟨st, rfl⟩ :=
      transformStatements_mem_aux (quarterlyStatements s) [] (by simp) kv hmem
    exact hstmt st
  · intro kv hkv
    have hmem : kv ∈ transformStatements (annualStatements s) := by
      simpa [transformedData] using hkv
    obtain ⟨st, rfl⟩ :=
      transformStatements_mem_aux (annualStatements s) [] (by simp) kv hmem
    exact hstmt st

/-- Witness for C2: a summary with one quarterly statement yields an entry
whose serialized key set is the full declared metric list, and the quote
and fundamentals key sets are the declared ones. -/
theorem output_keys_constant_witness :
    presentKeys (quotePairs (transformedData "AAPL" cexQuote oneStatementSummary).quote)
      = ["price", "changePercent", "volume", "previousClose", "dayHigh", "dayLow",
         "averageVolume"] ∧
    presentKeys
        (statementPairs ((statementKey tsA, transformStatementVal stA) : String × FinStatement).2)
      = ["totalRevenue", "grossProfit", "operatingIncome", "netIncome"] := by
  have h := output_keys_constant "AAPL" cexQuote oneStatementSummary
  exact ⟨h.1, h.2.2.2.1 (statementKey tsA, transformStatementVal stA) (by decide)⟩

/-- C10: every numeric field the route reads through `|| null` (and the two
ratio ternaries) collapses a provider value of exactly 0 to `null`, and the
view renders that `null` as the fixed placeholder. -/
theorem zero_collapses_to_null (sym : String) (q : ProviderQuote) (s : ProviderSummary)
    (sd : SummaryDetail) (dks : DefaultKeyStatistics) (fd : FinancialData)
    (st : ProviderStatement) (intl toFix : ℚ → String) (b : Bool) :
    (q.regularMarketPrice = .num 0 → (transformedData sym q s).quote.price = .nullv) ∧
    (q.regularMarketChangePercent = .num 0 →
      (transformedData sym q s).quote.changePercent = .nullv) ∧
    (q.regularMarketVolume = .num 0 → (transformedData sym q s).quote.volume = .nullv) ∧
    (q.regularMarketPreviousClose = .num 0 →
      (transformedData sym q s).quote.previousClose = .nullv) ∧
    (q.regularMarketDayHigh = .num 0 → (transformedData sym q s).quote.dayHigh = .nullv) ∧
    (q.regularMarketDayLow = .num 0 → (transformedData sym q s).quote.dayLow = .nullv) ∧
    (q.averageDailyVolume3Month = .num 0 →
      (transformedData sym q s).quote.averageVolume = .nullv) ∧
    (q.marketCap = .num 0 → (transformedData sym q s).fundamentals.marketCap = .nullv) ∧
    (s.summaryDetail = some sd → sd.trailingPE = .num 0 →
      (transformedData sym q s).fundamentals.peRatio = .nullv) ∧
    (s.defaultKeyStatistics = some dks → dks.trailingEps = .num 0 →
      (transformedData sym q s).fundamentals.eps = .nullv) ∧
    (s.financialData = some fd → fd.totalRevenue = .num 0 →
      (transformedData sym q s).fundamentals.revenue = .nullv) ∧
    (s.summaryDetail = some sd → sd.fiftyTwoWeekLow = .num 0 →
      (transformedData sym q s).fundamentals.fiftyTwoWeekLow = .nullv) ∧
    (s.summaryDetail = some sd → sd.fiftyTwoWeekHigh = .num 0 →
      (transformedData sym q s).fundamentals.fiftyTwoWeekHigh = .nullv) ∧
    (s.defaultKeyStatistics = some dks → dks.beta = .num 0 →
      (transformedData sym q s).fundamentals.beta = .nullv) ∧
    (s.defaultKeyStatistics = some dks → dks.priceToBook = .num 0 →
      (transformedData sym q s).fundamentals.priceToBook = .nullv) ∧
    (s.financialData = some fd → fd.profitMargins = .num 0 →
      (transformedData sym q s).fundamentals.profitMargin = .nullv) ∧
    (s.summaryDetail = some sd → sd.dividendYield = .num 0 →
      (transformedData sym q s).fundamentals.dividendYield = .nullv) ∧
    (st.totalRevenue = .num 0 → (transformStatementVal st).totalRevenue = .nullv) ∧
    (st.grossProfit = .num 0 → (transformStatementVal st).grossProfit = .nullv) ∧
    (st.operatingIncome = .num 0 → (transformStatementVal st).operatingIncome = .nullv) ∧
    (st.netIncome = .num 0 → (transformStatementVal st).netIncome = .nullv) ∧
    formatValue intl toFix none b = "N/A" := by
  refine ⟨?_, ?_, ?_, ?_, ?_, ?_, ?_, ?_, ?_, ?_, ?_, ?_, ?_, ?_, ?_, ?_, ?_, ?_, ?_,
    ?_, ?_, ?_⟩ <;>
    first
      | (intro h1 h2
         simp [transformedData, transformStatementVal, chainSD, chainDKS, chainFD,
           jsOr, truthy, h1, h2])
      | (intro h1
         simp [transformedData, transformStatementVal, chainSD, chainDKS, chainFD,
           jsOr, truthy, h1])
      | (cases b <;> rfl)

/-- Witness for C10: with every provider field exactly 0, every `|| null`
output field is `null`, and the view formats it as the placeholder. -/
theorem zero_collapses_to_null_witness :
    (transformedData "AAPL" zQuote zSummary).quote.price = .nullv ∧
    (transformedData "AAPL" zQuote zSummary).quote.changePercent = .nullv ∧
    (transformedData "AAPL" zQuote zSummary).quote.volume = .nullv ∧
    (transformedData "AAPL" zQuote zSummary).quote.previousClose = .nullv ∧
    (transformedData "AAPL" zQuote zSummary).quote.dayHigh = .nullv ∧
    (transformedData "AAPL" zQuote zSummary).quote.dayLow = .nullv ∧
    (transformedData "AAPL" zQuote zSummary).quote.averageVolume = .nullv ∧
    (transformedData "AAPL" zQuote zSummary).fundamentals.marketCap = .nullv ∧
    (transformedData "AAPL" zQuote zSummary).fundamentals.peRatio = .nullv ∧
    (transformedData "AAPL" zQuote zSummary).fundamentals.eps = .nullv ∧
    (transformedData "AAPL" zQuote zSummary).fundamentals.revenue = .nullv ∧
    (transformedData "AAPL" zQuote zSummary).fundamentals.fiftyTwoWeekLow = .nullv ∧
    (transformedData "AAPL" zQuote zSummary).fundamentals.fiftyTwoWeekHigh = .nullv ∧
    (transformedData "AAPL" zQuote zSummary).fundamentals.beta = .nullv ∧
    (transformedData "AAPL" zQuote zSummary).fundamentals.priceToBook = .nullv ∧
    (transformedData "AAPL" zQuote zSummary).fundamentals.profitMargin = .nullv ∧
    (transformedData "AAPL" zQuote zSummary).fundamentals.dividendYield = .nullv ∧
    (transformStatementVal zStatement).totalRevenue = .nullv ∧
    (transformStatementVal zStatement).grossProfit = .nullv ∧
    (transformStatementVal zStatement).operatingIncome = .nullv ∧
    (transformStatementVal zStatement).netIncome = .nullv ∧
    formatValue fmt0 fmt0 none true = "N/A" := by
  obtain ⟨p1, p2, p3, p4, p5, p6, p7, p8, p9, p10, p11, p12, p13, p14, p15, p16, p17,
    p18, p19, p20, p21, p22⟩ :=
    zero_collapses_to_null "AAPL" zQuote zSummary zSD zDKS zFD zStatement fmt0 fmt0 true
  exact ⟨p1 rfl, p2 rfl, p3 rfl, p4 rfl, p5 rfl, p6 rfl, p7 rfl, p8 rfl, p9 rfl rfl,
    p10 rfl rfl, p11 rfl rfl, p12 rfl rfl, p13 rfl rfl, p14 rfl rfl, p15 rfl rfl,
    p16 rfl rfl, p17 rfl rfl, p18 rfl, p19 rfl, p20 rfl, p21 rfl, p22⟩

instance : IsTotal String (fun a b : String => a.data ≤ b.data) :=
  ⟨fun a b => le_total a.data b.data⟩

instance : IsTrans String (fun a b : String => a.data ≤ b.data) :=
  ⟨fun _ _ _ h1 h2 => le_trans h1 h2⟩

/-- C7 (amended): in the canonical `renderFinancialTable` the column dates
are the mapping's keys in descending string (hence, for ISO dates,
chronological) order; in the earlier revision they are in ascending order,
oldest first. -/
theorem column_order (keys : List String) :
    List.Perm (columnDates keys) keys ∧
    (columnDates keys).Pairwise (fun a b => b ≤ a) ∧
    List.Perm (columnDatesEarlier keys) keys ∧
    (columnDatesEarlier keys).Pairwise (fun a b => a ≤ b) ∧
    columnDates ["2023-03-31", "2023-06-30"] = ["2023-06-30", "2023-03-31"] := by
  have hsorted0 : (jsSortStrings keys).Pairwise (fun a b : String => a.data ≤ b.data) := by
    unfold jsSortStrings
    exact List.sorted_insertionSort (fun a b : String => a.data ≤ b.data) keys
  have hsorted : (jsSortStrings keys).Pairwise (fun a b : String => a ≤ b) :=
    hsorted0.imp (fun h => String.le_iff_toList_le.mpr h)
  refine ⟨?_, ?_, ?_, hsorted, by decide⟩
  · exact (List.reverse_perm _).trans (List.perm_insertionSort _ keys)
  · exact List.pairwise_reverse.mpr hsorted
  · exact List.perm_insertionSort _ keys

/-- Counterexample for C7 as stated: the earlier revision's
`renderFinancialTable` (`Object.keys(statements).sort()` with no reversal)
renders the keys 2023-03-31, 2023-06-30 with 2023-03-31 first, not
2023-06-30. -/
theorem column_order_earlier_ascending :
    columnDatesEarlier ["2023-03-31", "2023-06-30"] = ["2023-03-31", "2023-06-30"] ∧
    ("2023-03-31" : String) ≠ "2023-06-30" := by
  constructor <;> decide

/-- An all-`null` statement entry yields `null` at every metric key. -/
theorem VStatement.allNull_get {v : VStatement} (h : v.allNull = true) (mk : MetricKey) :
    v.get mk = none := by
  simp only [VStatement.allNull, Bool.and_eq_true, Option.isNone_iff_eq_none] at h
  obtain ⟨⟨⟨⟨⟨⟨⟨h1, h2⟩, h3⟩, h4⟩, h5⟩, h6⟩, h7⟩, h8⟩ := h
  cases mk <;> simp [VStatement.get, h1, h2, h3, h4, h5, h6, h7, h8]

/-- In an all-`null` response, every entry of a mapping obtained through
`getMapping` is all-`null`. -/
theorem getMapping_all_null {d : ApiResponse} {ty : PeriodType}
    {statements : List (String × VStatement)}
    (h : allNullResp d = true) (hg : getMapping (some d) ty = some statements) :
    ∀ p ∈ statements, p.2.allNull = true := by
  cases hfl : d.financials with
  | none => simp [getMapping, hfl] at hg
  | some f =>
    have hmaps : allNullMapping f.quarterly = true ∧ allNullMapping f.annual = true := by
      unfold allNullResp at h
      rw [hfl] at h
      simp only [Bool.and_eq_true] at h
      exact h.2
    cases ty with
    | quarterly =>
      have hq : f.quarterly = some statements := by simpa [getMapping, hfl] using hg
      have := hmaps.1
      rw [hq] at this
      simpa [allNullMapping, List.all_eq_true] using this
    | annual =>
      have ha : f.annual = some statements := by simpa [getMapping, hfl] using hg
      have := hmaps.2
      rw [ha] at this
      simpa [allNullMapping, List.all_eq_true] using this

/-- C8 (amended): rendering an all-`null` response shows the fixed
placeholder in every metrics-grid slot and in every table cell, and shows
the no-data message when a statement mapping is absent; a present-but-empty
mapping renders nothing at all (the bare `null`), not the message. -/
theorem all_null_renders_placeholder (intl toFix toLocale : ℚ → String)
    (localeDate : String → String) (d : ApiResponse) (ty : PeriodType)
    (h : allNullResp d = true) :
    renderFinancialMetrics intl toFix toLocale d
      = ["N/A", "N/A", "N/A", "N/A", "N/A", "N/A", "N/A", "N/A", "N/A", "N/A"] ∧
    (getMapping (some d) ty = none →
      renderFinancialTable intl toFix localeDate (some d) ty
        = .noData ("No " ++ ty.label ++ " data available")) ∧
    (getMapping (some d) ty = some [] →
      renderFinancialTable intl toFix localeDate (some d) ty = .bare) ∧
    (∀ hs rows, renderFinancialTable intl toFix localeDate (some d) ty = .table hs rows →
      ∀ row ∈ rows, ∀ cell ∈ row.2, cell = "N/A") := by
  have hflds := h
  simp only [allNullResp, Bool.and_eq_true, Option.isNone_iff_eq_none] at hflds
  obtain ⟨⟨⟨⟨⟨⟨⟨⟨⟨⟨⟨⟨⟨⟨⟨⟨⟨hp, hcp⟩, hv⟩, hpc⟩, hav⟩, hdh⟩, hdl⟩, hmc⟩, hpe⟩, heps⟩,
    hpm⟩, hrev⟩, h52l⟩, h52h⟩, hbeta⟩, hdy⟩, hptb⟩, hfin⟩ := hflds
  refine ⟨?_, ?_, ?_, ?_⟩
  · simp [renderFinancialMetrics, formatValue, peRatioSlot, volumeSlot,
      formatPercentageChange, hp, hcp, hv, hmc, hpe, heps, hpm, hrev, h52l, h52h]
  · intro hm
    simp [renderFinancialTable, hm]
  · intro hm
    simp [renderFinancialTable, hm, columnDates, jsSortStrings, List.insertionSort]
  · intro hs rows hrender row hrow cell hcell
    cases hg : getMapping (some d) ty with
    | none => simp [renderFinancialTable, hg] at hrender
    | some statements =>
      simp only [renderFinancialTable, hg] at hrender
      by_cases he : (columnDates (statements.map Prod.fst)).isEmpty
      · simp [he] at hrender
      · simp only [he, if_false, Bool.false_eq_true, if_neg] at hrender
        obtain ⟨hhs, hrows⟩ := TableRender.table.inj hrender
        rw [← hrows] at hrow
        obtain ⟨mk, hmk, hrowEq⟩ := List.mem_map.mp hrow
        rw [← hrowEq] at hcell
        obtain ⟨date, hdate, hcellEq⟩ := List.mem_map.mp hcell
        rw [← hcellEq]
        unfold cellText lookupStatement
        cases hfind : statements.find? (fun p => p.1 == date) with
        | none => rfl
        | some p =>
          have hpmem : p ∈ statements := List.mem_of_find?_eq_some hfind
          have hallp : p.2.allNull = true := getMapping_all_null h hg p hpmem
          simp [VStatement.allNull_get hallp mk, formatValue]

/-- Witness for C8: the concrete all-`null` response with no financials
renders ten placeholders and the quarterly no-data message. -/
theorem all_null_renders_placeholder_witness :
    allNullResp dNull = true ∧
    renderFinancialMetrics fmt0 fmt0 fmt0 dNull
      = ["N/A", "N/A", "N/A", "N/A", "N/A", "N/A", "N/A", "N/A", "N/A", "N/A"] ∧
    renderFinancialTable fmt0 fmt0 idStr (some dNull) .quarterly
      = .noData "No quarterly data available" := by
  have h := all_null_renders_placeholder fmt0 fmt0 fmt0 idStr dNull .quarterly (by decide)
  exact ⟨by decide, h.1, h.2.1 rfl⟩

/-- Counterexample for C8 as stated: a present-but-empty quarterly mapping
renders the bare `null` — no table and, contrary to the claim, no
"no data available" message. -/
theorem empty_mapping_renders_nothing :
    renderFinancialTable fmt0 fmt0 idStr (some emptyMapResp) .quarterly = TableRender.bare ∧
    (renderFinancialTable fmt0 fmt0 idStr (some emptyMapResp) .quarterly).isNoData = false := by
  constructor <;> rfl

/-- A single transition preserves the fetch/display invariant. -/
theorem step_inv (st : ViewState) (e : FetchEvent) (h : Inv st) : Inv (step st e) := by
  obtain ⟨h1, h2⟩ := h
  cases e with
  | edit s => exact ⟨h1, h2⟩
  | fetchStart =>
    by_cases hc : st.loading ∨ st.symbol = ""
    · simpa [step, hc] using ⟨h1, h2⟩
    · constructor
      · intro _
        simp [step, hc]
      · intro hne
        simp [step, hc] at hne
  | fetchOk r =>
    by_cases hl : st.loading
    · have he := h1 hl
      refine ⟨fun hcontra => ?_, fun hne => ?_⟩
      · simp [step, hl] at hcontra
      · simp [step, hl] at hne
        exact absurd he hne
    · simpa [step, hl] using ⟨h1, h2⟩
  | fetchErr m =>
    by_cases hl : st.loading
    · exact ⟨fun hcontra => by simp [step, hl] at hcontra, fun _ => by simp [step, hl]⟩
    · simpa [step, hl] using ⟨h1, h2⟩

/-- The invariant holds after any event sequence from any invariant
state. -/
theorem foldl_inv (evs : List FetchEvent) :
    ∀ st : ViewState, Inv st → Inv (evs.foldl step st) := by
  induction evs with
  | nil => intro st h; exact h
  | cons e tl ih =>
    intro st h
    exact ih _ (step_inv st e h)

/-- C9: in every reachable state of the fetch/display cycle a nonempty
error message implies the data is cleared — the error alert and a populated
data panel never render simultaneously — and the failing transition itself
sets the message and clears the data atomically. -/
theorem error_clears_data :
    (∀ evs : List FetchEvent, (run evs).error ≠ "" → (run evs).data = none) ∧
    (∀ (st : ViewState) (m : String), st.loading = true →
      (step st (.fetchErr m)).error = m ∧ (step st (.fetchErr m)).data = none) := by
  constructor
  · intro evs h
    have hinit : Inv initState := ⟨fun hc => by simp [initState] at hc, fun hne => rfl⟩
    exact (foldl_inv evs initState hinit).2 h
  · intro st m hl
    constructor <;> simp [step, hl]

/-- Witness for C9: the demonstration run ends with a nonempty error and no
data, and a concrete failing transition sets both fields at once. -/
theorem error_clears_data_witness :
    (run demoEvents).error ≠ "" ∧ (run demoEvents).data = none ∧
    (step ⟨"AAPL", none, true, ""⟩ (.fetchErr "boom")).error = "boom" ∧
    (step ⟨"AAPL", none, true, ""⟩ (.fetchErr "boom")).data = none := by
  refine ⟨by decide, error_clears_data.1 demoEvents (by decide), ?_, ?_⟩
  · exact (error_clears_data.2 ⟨"AAPL", none, true, ""⟩ "boom" rfl).1
  · exact (error_clears_data.2 ⟨"AAPL", none, true, ""⟩ "boom" rfl).2

end FinViewer

